import Mathlib

/-!
Verification of the file-intake and type-classification pipeline of
`src/pages/api/extract-text.js` (a single Next.js API route).

Modelling conventions, used throughout:
* A Node `Buffer` is a `List Nat` of byte values (each cell `< 256` by
  construction at every intake site; helper functions normalise with `% 256`
  where an untyped cell could exceed a byte).
* A JavaScript string is a `List Nat` of UTF-16 code units (JS `.length`,
  `.substring`, `.split` and character-class tests all operate on code
  units, and `Buffer.toString('utf8')` can in principle produce lone
  surrogates only as replacement characters, which are single units).
* `Buffer.toString('utf8')` is the WHATWG UTF-8 decode with U+FFFD
  replacement (one replacement per maximal invalid subpart, the offending
  byte re-examined), which is what Node/V8 implements.
* Floating-point-free reading of `printableRatio > 0.8`: the comparison
  `printable / total > 0.8` is modelled exactly as `5 * printable > 4 * total`
  on naturals.  In JavaScript `0 / 0` is `NaN` and `NaN > 0.8` is `false`;
  in the model `5 * 0 > 4 * 0` is likewise `false`, so the empty-buffer
  behaviour agrees.
-/

namespace ExtractApi

/-! ## Configuration constants (the `CONFIG` object, lines 18-35) -/

def MAX_FILE_SIZE : Nat := 50 * 1024 * 1024

def ALLOWED_FILE_TYPES : List String := ["pdf", "txt", "html", "htm", "doc", "docx"]

def MAX_TEXT_LENGTH : Nat := 50000

/-! ## Hex encoding (`buffer.toString('hex', 0, 8)`) -/

def hexDigit (d : Nat) : Char :=
  if d < 10 then Char.ofNat (48 + d) else Char.ofNat (87 + d)

/-- Lowercase hex encoding of a byte list, two digits per byte
(`% 256` normalises a model cell to a byte; every real buffer cell already is one). -/
def hexEncode (l : List Nat) : List Char :=
  l.flatMap fun b => [hexDigit (b % 256 / 16), hexDigit (b % 256 % 16)]

/-- Model of `buffer.toString('hex', 0, 8)` — the first eight bytes, hex encoded (line 168). -/
def magicOf (buffer : List Nat) : List Char :=
  hexEncode (buffer.take 8)

/-! ## The `MAGIC_NUMBERS` table (lines 41-47) -/

def sigPDF : List Char := ['2', '5', '5', '0', '4', '4', '4', '6']
def sigPNG : List Char := ['8', '9', '5', '0', '4', 'e', '4', '7']
def sigJPEG : List Char := ['f', 'f', 'd', '8']
def sigDOC : List Char := ['d', '0', 'c', 'f', '1', '1', 'e', '0']
def sigZIP : List Char := ['5', '0', '4', 'b', '0', '3', '0', '4']

/-- The registered signatures with their mapped tags, in the order the source
checks them (lines 170-172). -/
def sigTable : List (List Char × String) :=
  [(sigPDF, "pdf"), (sigPNG, "image"), (sigJPEG, "image"),
   (sigDOC, "document"), (sigZIP, "document")]

/-! ## WHATWG UTF-8 decoding with replacement (Node `buffer.toString('utf8')`) -/

/-- Is `c` a continuation byte `10xxxxxx`? -/
def isCont (c : Nat) : Bool := 0x80 ≤ c && c ≤ 0xBF

/-- Valid range of the first continuation byte after a three-byte lead `b`
(E0 and ED restrict it to exclude overlongs and surrogates). -/
def cont3Ok (b c : Nat) : Bool :=
  if b = 0xE0 then 0xA0 ≤ c && c ≤ 0xBF
  else if b = 0xED then 0x80 ≤ c && c ≤ 0x9F
  else isCont c

/-- Valid range of the first continuation byte after a four-byte lead `b`
(F0 and F4 restrict it to exclude overlongs and values above U+10FFFF). -/
def cont4Ok (b c : Nat) : Bool :=
  if b = 0xF0 then 0x90 ≤ c && c ≤ 0xBF
  else if b = 0xF4 then 0x80 ≤ c && c ≤ 0x8F
  else isCont c

/-- A code point as UTF-16 code units (astral code points become a surrogate pair). -/
def toUtf16 (cp : Nat) : List Nat :=
  if cp < 0x10000 then [cp]
  else [0xD800 + (cp - 0x10000) / 0x400, 0xDC00 + (cp - 0x10000) % 0x400]

/-- WHATWG UTF-8 decode with U+FFFD replacement, producing UTF-16 code units.
On an invalid byte the decoder emits one replacement and re-examines the
bytes after the consumed prefix, exactly as the standard's state machine does. -/
def utf8DecodeAux : List Nat → List Nat
  | [] => []
  | b :: rest =>
    if b < 0x80 then b :: utf8DecodeAux rest
    else if 0xC2 ≤ b && b ≤ 0xDF then
      match rest with
      | [] => [0xFFFD]
      | c1 :: r2 =>
        if isCont c1 then ((b - 0xC0) * 0x40 + (c1 - 0x80)) :: utf8DecodeAux r2
        else 0xFFFD :: utf8DecodeAux (c1 :: r2)
    else if 0xE0 ≤ b && b ≤ 0xEF then
      match rest with
      | [] => [0xFFFD]
      | c1 :: r2 =>
        if cont3Ok b c1 then
          match r2 with
          | [] => 0xFFFD :: []
          | c2 :: r3 =>
            if isCont c2 then
              ((b - 0xE0) * 0x1000 + (c1 - 0x80) * 0x40 + (c2 - 0x80)) :: utf8DecodeAux r3
            else 0xFFFD :: utf8DecodeAux (c2 :: r3)
        else 0xFFFD :: utf8DecodeAux (c1 :: r2)
    else if 0xF0 ≤ b && b ≤ 0xF4 then
      match rest with
      | [] => [0xFFFD]
      | c1 :: r2 =>
        if cont4Ok b c1 then
          match r2 with
          | [] => 0xFFFD :: []
          | c2 :: r3 =>
            if isCont c2 then
              match r3 with
              | [] => 0xFFFD :: []
              | c3 :: r4 =>
                if isCont c3 then
                  toUtf16 ((b - 0xF0) * 0x40000 + (c1 - 0x80) * 0x1000 +
                    (c2 - 0x80) * 0x40 + (c3 - 0x80)) ++ utf8DecodeAux r4
                else 0xFFFD :: utf8DecodeAux (c3 :: r4)
            else 0xFFFD :: utf8DecodeAux (c2 :: r3)
        else 0xFFFD :: utf8DecodeAux (c1 :: r2)
    else 0xFFFD :: utf8DecodeAux rest

/-- Model of `buffer.toString('utf8')` — the whole buffer decoded to UTF-16 code units. -/
def utf8Decode (buffer : List Nat) : List Nat := utf8DecodeAux buffer

/-- Model of `buffer.toString('utf8', a, b)` — a byte range decoded (line 221). -/
def utf8DecodeRange (buffer : List Nat) (a b : Nat) : List Nat :=
  utf8Decode ((buffer.take b).drop a)

/-! ## JS string helpers on UTF-16 code units -/

/-- The character class `[\x20-\x7E\n\r\t]` of the text heuristic (line 178). -/
def printableUnit (u : Nat) : Bool :=
  (0x20 ≤ u && u ≤ 0x7E) || u == 10 || u == 13 || u == 9

/-- The character class `[\x20-\x7E\n\r]` of the PDF preview (line 221; no tab). -/
def printablePdfUnit (u : Nat) : Bool :=
  (0x20 ≤ u && u ≤ 0x7E) || u == 10 || u == 13

/-- Model of `text.split('\n')` on code units: JS always yields `count + 1` segments. -/
def splitOnNl : List Nat → List (List Nat)
  | [] => [[]]
  | c :: rest =>
    if c = 10 then [] :: splitOnNl rest
    else
      match splitOnNl rest with
      | [] => [[c]]
      | h :: t => (c :: h) :: t

/-- UTF-16 code units of a Lean string literal (all literals in this file are
in the Basic Multilingual Plane, so one unit per character). -/
def uStr (s : String) : List Nat := s.data.flatMap fun c => toUtf16 c.toNat

/-- UTF-8 bytes of an ASCII string literal (used to build concrete buffers). -/
def uBytes (s : String) : List Nat := s.data.map Char.toNat

/-! ## `path.extname(fileName).toLowerCase().slice(1)` (line 189) -/

/-- ASCII lowercasing, the relevant fragment of JS `toLowerCase` (the extension
is compared against the ASCII `ALLOWED_FILE_TYPES` list). -/
def toLowerAscii (l : List Char) : List Char :=
  l.map fun c => if 'A' ≤ c && c ≤ 'Z' then Char.ofNat (c.toNat + 32) else c

/-- Node `path.extname` on a basename: the suffix from the RIGHTMOST dot,
except that there is no extension when there is no dot at all, when the
rightmost dot is the component's first character (`.bashrc`, `.`), or when
the component is exactly `..`.  So `..txt` yields `.txt`, `...` and `a..`
yield `.`, matching the preDotState conditions of Node's implementation. -/
def extnameCore (base : List Char) : List Char :=
  let afterDotRev := base.reverse.takeWhile (fun c => !(c = '.'))
  if afterDotRev.length = base.length then []
  else
    let dotIdx := base.length - afterDotRev.length - 1
    if dotIdx = 0 then []
    else if base = ['.', '.'] then []
    else '.' :: afterDotRev.reverse

/-- Model of `path.extname(fileName)`: trailing slashes are skipped (Node's
scan treats them like basename does), then the extension of the part after
the last remaining slash. -/
def extname (fileName : String) : List Char :=
  let noTrail := fileName.data.reverse.dropWhile (fun c => c = '/')
  extnameCore ((noTrail.takeWhile (fun c => !(c = '/'))).reverse)

/-- Model of `path.extname(fileName).toLowerCase().slice(1)` as a Lean string. -/
def extOf (fileName : String) : String :=
  String.mk ((toLowerAscii (extname fileName)).drop 1)

/-! ## The type classifier `detectFileType` (lines 167-196) -/

/-- Translation of `detectFileType(buffer, fileName)`.  `fileName` is the JS
argument with `""` standing for every falsy value (absent / empty), matching
the `if (fileName)` truthiness test on line 188.  The `try` around the text
heuristic is dropped: `buffer.toString('utf8')` never throws (it replaces
invalid bytes), so the `catch` arm is unreachable. -/
def detectFileType (buffer : List Nat) (fileName : String) : String :=
  let magic := magicOf buffer
  if sigPDF.isPrefixOf magic then "pdf"
  else if sigPNG.isPrefixOf magic || sigJPEG.isPrefixOf magic then "image"
  else if sigDOC.isPrefixOf magic || sigZIP.isPrefixOf magic then "document"
  else
    let text := utf8Decode buffer
    let nullBytes := text.contains 0
    -- `text.replace(/[^\x20-\x7E\n\r\t]/g, '').length / text.length > 0.8`
    if !nullBytes && 5 * (text.filter printableUnit).length > 4 * text.length then "text"
    else if !(fileName = "") then
      let ext := extOf fileName
      if ALLOWED_FILE_TYPES.contains ext then ext else "unknown"
    else "unknown"

/-! ## `ExtractionResult` — the union of the object literals returned by
`processBuffer` (lines 204-306).  A field that a branch does not set is JS
`undefined`, modelled as `none` (and dropped by `JSON.stringify` later). -/

structure ExtractionResult where
  success : Bool
  type : String
  fileName : Option (List Nat) := none
  text : Option (List Nat) := none
  metadata : Option (List (String × Nat)) := none
  truncated : Option Bool := none
  originalLength : Option Nat := none
  extractedLength : Option Nat := none
  error : Option (List Nat) := none
  hint : Option (List Nat) := none
  allowedTypes : Option (List String) := none
deriving Repr, DecidableEq

/-- The `fileName || default` truthiness defaults in the handlers. -/
def orDefault (fileName : String) (dflt : String) : List Nat :=
  if fileName = "" then uStr dflt else uStr fileName

/-- The size-guard failure record (lines 209-215): note it is built AFTER
`detectFileType` has run and carries the classifier's tag in `type`. -/
def sizeFailure (buffer : List Nat) (fileType : String) : ExtractionResult :=
  { success := false
    error := some (uStr ("File too large: " ++ toString buffer.length ++
      " bytes (max: " ++ toString MAX_FILE_SIZE ++ " bytes)"))
    type := fileType }

/-- The `case 'pdf'` handler (lines 218-241).  The `catch` arm is unreachable
in the model because buffer decoding is total. -/
def handlePdf (buffer : List Nat) (fileName : String) : ExtractionResult :=
  let textPreview := (utf8DecodeRange buffer 0 1000).filter printablePdfUnit
  { success := true
    type := "pdf"
    fileName := some (orDefault fileName "document.pdf")
    text := some (uStr ("PDF file detected. For enhanced text extraction with OCR and " ++
      "formatting preservation, use the dedicated resume parser service.\n\n" ++
      "Preview (first 1000 bytes):\n") ++ textPreview)
    metadata := some [("fileSize", buffer.length), ("pages", 1),
      ("textPreviewLength", textPreview.length)]
    hint := some (uStr "Upgrade to full PDF parsing service for complete text extraction") }

/-- The fixed truncation notice appended on line 256. -/
def truncationNotice : List Nat := uStr "\n\n[Content truncated due to size limits]"

/-- The `case 'text'/'txt'/'html'/'htm'` handler (lines 243-280).  The `catch`
arm is unreachable in the model because buffer decoding is total. -/
def handleTextLike (buffer : List Nat) (fileName : String) (fileType : String) :
    ExtractionResult :=
  let text := utf8Decode buffer
  if text.length > MAX_TEXT_LENGTH then
    { success := true
      type := fileType
      fileName := some (orDefault fileName "text.txt")
      text := some (text.take MAX_TEXT_LENGTH ++ truncationNotice)
      truncated := some true
      originalLength := some text.length
      extractedLength := some MAX_TEXT_LENGTH }
  else
    { success := true
      type := fileType
      fileName := some (orDefault fileName "text.txt")
      text := some text
      metadata := some [("fileSize", buffer.length), ("textLength", text.length),
        ("lines", (splitOnNl text).length)] }

/-- The `case 'image'` handler (lines 282-288). -/
def handleImage : ExtractionResult :=
  { success := false
    error := some (uStr "Image files not supported. OCR service required.")
    type := "image"
    hint := some (uStr "Convert image to PDF or text first, or enable OCR capabilities") }

/-- The `case 'document'` handler (lines 290-296). -/
def handleDocument : ExtractionResult :=
  { success := false
    error := some (uStr "Document processing requires additional services")
    type := "document"
    hint := some (uStr "Supported formats: PDF, TXT, HTML. Convert DOC/DOCX to PDF first.") }

/-- The `default` handler (lines 298-304). -/
def handleUnknown : ExtractionResult :=
  { success := false
    error := some (uStr "Unsupported file type")
    type := "unknown"
    allowedTypes := some ALLOWED_FILE_TYPES }

/-- Translation of `processBuffer(buffer, fileName)` (lines 204-306): the
classifier runs first, then the size guard, then the `switch` dispatch. -/
def processBuffer (buffer : List Nat) (fileName : String) : ExtractionResult :=
  let fileType := detectFileType buffer fileName
  if buffer.length > MAX_FILE_SIZE then sizeFailure buffer fileType
  else if fileType = "pdf" then handlePdf buffer fileName
  else if fileType = "text" || fileType = "txt" || fileType = "html" || fileType = "htm" then
    handleTextLike buffer fileName fileType
  else if fileType = "image" then handleImage
  else if fileType = "document" then handleDocument
  else handleUnknown

/-! ## State-passing rendering of the pipeline, for the frame property.

Each primitive a handler applies to the buffer (`Buffer.prototype.toString`,
`.length`) returns a fresh value and leaves the buffer bytes untouched in
Node; the primitives below make that buffer state explicit so that "no
handler mutates the input buffer" is a provable statement rather than a
modelling assumption hidden in pure functions. -/

/-- Read `buffer.toString('hex', 0, 8)` as a state-passing access. -/
def bufHex8St (buffer : List Nat) : List Char × List Nat := (magicOf buffer, buffer)

/-- Read `buffer.toString('utf8')` as a state-passing access. -/
def bufUtf8St (buffer : List Nat) : List Nat × List Nat := (utf8Decode buffer, buffer)

/-- Read `buffer.toString('utf8', a, b)` as a state-passing access. -/
def bufUtf8RangeSt (buffer : List Nat) (a b : Nat) : List Nat × List Nat :=
  (utf8DecodeRange buffer a b, buffer)

/-- Read `buffer.length` as a state-passing access. -/
def bufLengthSt (buffer : List Nat) : Nat × List Nat := (buffer.length, buffer)

/-- Variant of `detectFileType` with the buffer state threaded through every access. -/
def detectFileTypeSt (buffer : List Nat) (fileName : String) : String × List Nat :=
  let (magic, buffer) := bufHex8St buffer
  if sigPDF.isPrefixOf magic then ("pdf", buffer)
  else if sigPNG.isPrefixOf magic || sigJPEG.isPrefixOf magic then ("image", buffer)
  else if sigDOC.isPrefixOf magic || sigZIP.isPrefixOf magic then ("document", buffer)
  else
    let (text, buffer) := bufUtf8St buffer
    let nullBytes := text.contains 0
    if !nullBytes && 5 * (text.filter printableUnit).length > 4 * text.length then
      ("text", buffer)
    else if !(fileName = "") then
      let ext := extOf fileName
      if ALLOWED_FILE_TYPES.contains ext then (ext, buffer) else ("unknown", buffer)
    else ("unknown", buffer)

/-- Variant of `processBuffer` with the buffer state threaded through every access. -/
def processBufferSt (buffer : List Nat) (fileName : String) :
    ExtractionResult × List Nat :=
  let (fileType, buffer) := detectFileTypeSt buffer fileName
  let (fileSize, buffer) := bufLengthSt buffer
  if fileSize > MAX_FILE_SIZE then (sizeFailure buffer fileType, buffer)
  else if fileType = "pdf" then
    let (preview0, buffer) := bufUtf8RangeSt buffer 0 1000
    let textPreview := preview0.filter printablePdfUnit
    ({ success := true
       type := "pdf"
       fileName := some (orDefault fileName "document.pdf")
       text := some (uStr ("PDF file detected. For enhanced text extraction with OCR and " ++
         "formatting preservation, use the dedicated resume parser service.\n\n" ++
         "Preview (first 1000 bytes):\n") ++ textPreview)
       metadata := some [("fileSize", fileSize), ("pages", 1),
         ("textPreviewLength", textPreview.length)]
       hint := some (uStr "Upgrade to full PDF parsing service for complete text extraction") },
     buffer)
  else if fileType = "text" || fileType = "txt" || fileType = "html" || fileType = "htm" then
    let (text, buffer) := bufUtf8St buffer
    if text.length > MAX_TEXT_LENGTH then
      ({ success := true
         type := fileType
         fileName := some (orDefault fileName "text.txt")
         text := some (text.take MAX_TEXT_LENGTH ++ truncationNotice)
         truncated := some true
         originalLength := some text.length
         extractedLength := some MAX_TEXT_LENGTH }, buffer)
    else
      ({ success := true
         type := fileType
         fileName := some (orDefault fileName "text.txt")
         text := some text
         metadata := some [("fileSize", fileSize), ("textLength", text.length),
           ("lines", (splitOnNl text).length)] }, buffer)
  else if fileType = "image" then (handleImage, buffer)
  else if fileType = "document" then (handleDocument, buffer)
  else (handleUnknown, buffer)

/-! ## Node's forgiving base64 decode — `Buffer.from(s, 'base64')` (line 422).

Node never throws here: characters outside the base64 alphabets (standard and
URL-safe) are skipped, decoding stops at the first `=` padding character, and
a trailing partial group contributes 2 chars → 1 byte, 3 chars → 2 bytes,
1 char → nothing.  The `catch (e)` on line 424 is therefore unreachable for
string input. -/

/-- Value of a base64 alphabet character (standard and URL-safe), else `none`. -/
def b64Val (c : Char) : Option Nat :=
  if 'A' ≤ c && c ≤ 'Z' then some (c.toNat - 65)
  else if 'a' ≤ c && c ≤ 'z' then some (c.toNat - 97 + 26)
  else if '0' ≤ c && c ≤ '9' then some (c.toNat - 48 + 52)
  else if c = '+' || c = '-' then some 62
  else if c = '/' || c = '_' then some 63
  else none

/-- The 6-bit values of a base64 string: invalid characters skipped, stop at `=`. -/
def b64Sextets : List Char → List Nat
  | [] => []
  | c :: rest =>
    if c = '=' then []
    else
      match b64Val c with
      | some v => v :: b64Sextets rest
      | none => b64Sextets rest

/-- Reassemble bytes from 6-bit groups (4 → 3 bytes; trailing 2 → 1, 3 → 2, 1 → 0). -/
def b64Bytes : List Nat → List Nat
  | v1 :: v2 :: v3 :: v4 :: rest =>
    (v1 * 4 + v2 / 16) :: (v2 % 16 * 16 + v3 / 4) :: (v3 % 4 * 64 + v4) :: b64Bytes rest
  | [v1, v2, v3] => [v1 * 4 + v2 / 16, v2 % 16 * 16 + v3 / 4]
  | [v1, v2] => [v1 * 4 + v2 / 16]
  | [_] => []
  | [] => []

/-- Model of `Buffer.from(s, 'base64')`: total, best-effort, possibly empty. -/
def base64Decode (s : String) : List Nat := b64Bytes (b64Sextets s.data)

/-! ## `downloadFileFromUrl` (lines 119-164) -/

/-- How the response stream ends: normally, or with an `'error'` event. -/
inductive StreamEnd where
  | ok
  | err (msg : String)
deriving Repr, DecidableEq

/-- The network environment's answer to the single `https.get` a request makes:
a connection error, the 30-second timeout, or a response with a status line
and a sequence of `'data'` chunks. -/
inductive NetOutcome where
  | connError (msg : String)
  | timeout
  | response (status : Nat) (statusMessage : String) (chunks : List (List Nat)) (fin : StreamEnd)
deriving Repr, DecidableEq

/-- ASCII alphabetic characters, the legal start of a URL scheme. -/
def isAsciiAlpha (c : Char) : Bool :=
  ('a' ≤ c && c ≤ 'z') || ('A' ≤ c && c ≤ 'Z')

/-- Characters legal inside a URL scheme after the first. -/
def isSchemeChar (c : Char) : Bool :=
  isAsciiAlpha c || ('0' ≤ c && c ≤ '9') || c = '+' || c = '-' || c = '.'

/-- ASCII decimal digits (URL ports). -/
def isDigitChar (c : Char) : Bool := '0' ≤ c && c ≤ '9'

/-- ASCII hexadecimal digits (the IPv6 host alphabet). -/
def isHexDigitChar (c : Char) : Bool :=
  isDigitChar c || ('a' ≤ c && c ≤ 'f') || ('A' ≤ c && c ≤ 'F')

/-- Code points the WHATWG host parser forbids in a non-bracket host.  Percent
signs are allowed: percent-decoding of hosts is outside the model (see
`urlProtocol`). -/
def isHostForbidden (c : Char) : Bool :=
  c = ' ' || c = '#' || c = '/' || c = ':' || c = '<' || c = '>' || c = '?' ||
  c = '@' || c = '[' || c = '\\' || c = ']' || c = '^' || c = '|' ||
  c.toNat < 0x20 || c.toNat = 0x7F

/-- The authority's host-and-port part: everything after the LAST `@`
(userinfo is dropped). -/
def afterLastAt (l : List Char) : List Char :=
  let pre := l.reverse.takeWhile (fun c => !(c = '@'))
  if pre.length = l.length then l else pre.reverse

/-- Numeric value of a digit string (for the URL port range check). -/
def digitsVal (l : List Char) : Nat :=
  l.foldl (fun acc c => acc * 10 + (c.toNat - 48)) 0

/-- Does an authority's host-and-port part parse: a non-empty host free of
forbidden code points (or a bracketed IPv6 host over the IPv6 alphabet with
a closing bracket), optionally followed by a colon and a digits-only port of
at most 65535? -/
def validHostPort (hp : List Char) : Bool :=
  match hp with
  | [] => false
  | '[' :: rest =>
    let inside := rest.takeWhile (fun c => !(c = ']'))
    if inside.length = rest.length then false
    else
      let after := rest.drop (inside.length + 1)
      !inside.isEmpty && inside.all (fun c => isHexDigitChar c || c = ':' || c = '.') &&
        (match after with
         | [] => true
         | ':' :: ds => ds.all isDigitChar && digitsVal ds ≤ 65535
         | _ => false)
  | _ =>
    let host := hp.takeWhile (fun c => !(c = ':'))
    let port := hp.drop host.length
    !host.isEmpty && host.all (fun c => !(isHostForbidden c)) &&
      (match port with
       | [] => true
       | ':' :: ds => ds.all isDigitChar && digitsVal ds ≤ 65535
       | _ => false)

/-- Special schemes (other than `file:`, which allows an empty host and so
always parses) whose URLs require an authority with a non-empty host. -/
def specialSchemes : List String := ["http:", "https:", "ws:", "wss:", "ftp:"]

/-- Model of the WHATWG parse performed by the source's `new URL(url)`
(line 121) and again inside `https.get` (line 134; Node parses string URLs
for requests with `new URL` too, so the two sites agree).  The model covers
the parts the program's dispatch can observe: removal of all tabs and
newlines and trimming of leading/trailing C0-control-or-space; the scheme
grammar (leading ASCII alpha, then alphanumerics, `+`, `-`, `.`) with CASE
NORMALIZATION to lowercase; and, for the special schemes, the authority —
any run of slashes or backslashes skipped, userinfo up to the last `@`
dropped, bracketed IPv6 hosts, a digits-only port of at most 65535, and a
non-empty host free of forbidden code points.  Percent-decoding of hosts,
IDNA mapping and IPv6 textual validity beyond its alphabet are outside the
model: such hosts are treated as opaque.  Returns the lowercased `protocol`
(scheme plus colon), or `none` when the constructor throws `Invalid URL` —
in particular `HTTPS://host` parses to `https:`, while `https://` (empty
host for a special scheme) does not parse. -/
def urlProtocol (url : String) : Option String :=
  let noTabNl := url.data.filter fun c => !(c.toNat = 9 || c.toNat = 10 || c.toNat = 13)
  let cs :=
    ((noTabNl.dropWhile fun c => c.toNat ≤ 0x20).reverse.dropWhile
      fun c => c.toNat ≤ 0x20).reverse
  let schemeRaw := cs.takeWhile fun c => !(c = ':')
  if schemeRaw.length = cs.length then none
  else
    match schemeRaw with
    | [] => none
    | c0 :: restScheme =>
      if !(isAsciiAlpha c0 && restScheme.all isSchemeChar) then none
      else
        let scheme := String.mk (toLowerAscii schemeRaw) ++ ":"
        if specialSchemes.contains scheme then
          let afterColon := cs.drop (schemeRaw.length + 1)
          let rest2 := afterColon.dropWhile fun c => c = '/' || c = '\\'
          let auth := rest2.takeWhile fun c => !(c = '/' || c = '\\' || c = '?' || c = '#')
          if validHostPort (afterLastAt auth) then some scheme else none
        else some scheme

/-- The streaming size checkpoint (lines 143-156): accumulate chunks, reject the
instant the cumulative size exceeds the maximum (the rejection reports the
bytes received so far, current chunk included), concatenate on `'end'`. -/
def streamChunks : List (List Nat) → Nat → List (List Nat) → StreamEnd →
    Except String (List Nat)
  | [], _, acc, .ok => .ok (acc.reverse.flatten)
  | [], _, _, .err m => .error m
  | c :: rest, total, acc, fin =>
    let t := total + c.length
    if t > MAX_FILE_SIZE then .error ("File too large: " ++ toString t ++ " bytes")
    else streamChunks rest t (c :: acc) fin

/-- Dispatch of lines 121-163 on the outcome of the URL parse — exactly the
value the program branches on.  The source's own check admits both `http:`
and `https:` (line 124), but the request is then issued with `https.get`
(line 134), which re-parses the URL and throws `ERR_INVALID_PROTOCOL` for
any protocol other than `https:` — thrown inside the promise executor,
hence a rejection; so in fact only `https:` URLs can succeed. -/
def downloadWithProtocol (p : Option String) (net : NetOutcome) :
    Except String (List Nat) :=
  match p with
  | none => .error "Invalid URL"
  | some q =>
    if !(q = "http:") && !(q = "https:") then .error "Invalid URL protocol"
    else if q = "http:" then
      .error "Protocol \"http:\" not supported. Expected \"https:\""
    else
      match net with
      | .connError m => .error m
      | .timeout => .error "Request timeout"
      | .response status statusMessage chunks fin =>
        if !(status = 200) then
          .error ("HTTP " ++ toString status ++ ": " ++ statusMessage)
        else streamChunks chunks 0 [] fin

/-- Translation of `downloadFileFromUrl(url)` (lines 119-164), the network
modelled by a `NetOutcome`: parse the URL, then dispatch on its protocol. -/
def downloadFileFromUrl (url : String) (net : NetOutcome) : Except String (List Nat) :=
  downloadWithProtocol (urlProtocol url) net

/-! ## Wire JSON and the HTTP handler (lines 329-492) -/

/-- JSON values as `res.json`/`JSON.stringify` emits them; strings are UTF-16
code-unit lists like every other JS string in the model. -/
inductive Json where
  | null
  | bool (b : Bool)
  | num (n : Nat)
  | str (s : List Nat)
  | arr (xs : List Json)
  | obj (fields : List (String × Json))

/-- Association lookup among an object's fields. -/
def jsonAssoc : List (String × Json) → String → Option Json
  | [], _ => none
  | (k, v) :: rest, key => if k = key then some v else jsonAssoc rest key

/-- Field lookup on a JSON value (`none` on non-objects and absent keys). -/
def jsonGet (j : Json) (key : String) : Option Json :=
  match j with
  | .obj fields => jsonAssoc fields key
  | _ => none

/-- Two-level field lookup (`body.data.metadata` and the like). -/
def jsonGet2 (j : Json) (k1 k2 : String) : Option Json :=
  match jsonGet j k1 with
  | some d => jsonGet d k2
  | none => none

/-- A key that `JSON.stringify` drops when the value is `undefined`. -/
def optField (k : String) (v : Option Json) : List (String × Json) :=
  match v with
  | none => []
  | some j => [(k, j)]

/-- Model of `(Date.now() - startTime) + 'ms'`. -/
def executionTimeStr (elapsed : Nat) : List Nat := uStr (toString elapsed ++ "ms")

/-- The 200 success envelope (lines 455-465).  `metadata: result.metadata || {}`
and `truncated: result.truncated || false` apply JS `||` defaults; keys whose
value is `undefined` are dropped by `JSON.stringify`. -/
def successEnvelope (r : ExtractionResult) (elapsed : Nat) : Json :=
  .obj [("success", .bool true),
        ("data", .obj (optField "extractedText" (r.text.map .str) ++
           optField "fileName" (r.fileName.map .str) ++
           [("fileType", .str (uStr r.type)),
            ("metadata", .obj ((r.metadata.getD []).map fun p => (p.1, Json.num p.2))),
            ("truncated", .bool (r.truncated.getD false))])),
        ("executionTime", .str (executionTimeStr elapsed))]

/-- The 400 error envelope for a failed `ExtractionResult` (lines 467-477). -/
def errorEnvelope (r : ExtractionResult) (elapsed : Nat) : Json :=
  .obj [("success", .bool false),
        ("error", .obj (optField "message" (r.error.map .str) ++
           [("type", .str (uStr r.type))] ++
           optField "hint" (r.hint.map .str) ++
           optField "allowedTypes" (r.allowedTypes.map fun ts =>
             .arr (ts.map fun t => .str (uStr t))))),
        ("executionTime", .str (executionTimeStr elapsed))]

/-- Lines 453-478: route a handler result to one of the two envelopes. -/
def formatResult (r : ExtractionResult) (elapsed : Nat) : Nat × Json :=
  if r.success then (200, successEnvelope r elapsed)
  else (400, errorEnvelope r elapsed)

/-- What `formidable`'s parse of a multipart body yields when invoked:
a thrown/rejected error (which escapes to the outer `catch`), no file under
the `file`/`resume`/`document` fields, or the first file's bytes and original
filename (`""` for a null `originalFilename`). -/
inductive MultipartOutcome where
  | parseError (msg : String)
  | noFile
  | file (bytes : List Nat) (originalFilename : String)
deriving Repr, DecidableEq

/-- The JSON request body's three intake keys plus `fileName`, each `none` when
the key is absent.  `binaryData := some none` models a truthy `binaryData`
whose `.data` does not build a buffer (`Buffer.from` throws, line 432);
`some (some l)` a numeric array, each entry masked to a byte. -/
structure JsonReq where
  fileUrl : Option String := none
  fileBase64 : Option String := none
  binaryData : Option (Option (List Int)) := none
  fileName : Option String := none
deriving Repr, DecidableEq

/-- One inbound request: the method and headers the handler consults, plus what
each body-reading collaborator would yield if the handler invokes it
(`jsonParse = none` models `JSON.parse` throwing on lines 402-408). -/
structure Request where
  method : String
  contentType : String
  hasApiKey : Bool
  multipartOutcome : MultipartOutcome
  jsonParse : Option JsonReq
deriving Repr, DecidableEq

/-- Per-request facts owned by the external collaborators: elapsed wall-clock
milliseconds at formatting time, the rate limiter's verdict and computed
`retryAfter`, the `REQUIRE_API_KEY` flag, and `NODE_ENV === 'development'`. -/
structure HandlerCtx where
  elapsedMs : Nat
  rateLimited : Bool
  retryAfter : Nat
  requireApiKey : Bool
  devMode : Bool
deriving Repr, DecidableEq

/-- JS truthiness of an optional string value. -/
def truthyStr (v : Option String) : Bool :=
  match v with
  | none => false
  | some s => !(s = "")

/-- Substring containment, JS `String.prototype.includes`. -/
def containsSub (sub : List Char) : List Char → Bool
  | [] => sub.isEmpty
  | a :: t => sub.isPrefixOf (a :: t) || containsSub sub t

/-- Model of `path.basename(url)` (line 414): the part after the last slash, ignoring
trailing slashes. -/
def basename (s : String) : String :=
  let noTrail := s.data.reverse.dropWhile (fun c => c = '/')
  String.mk ((noTrail.takeWhile (fun c => !(c = '/'))).reverse)

/-- Model of the `(val & 255)` coercion `Buffer.from` applies to each numeric array entry. -/
def toByte (v : Int) : Nat := (v % 256).toNat

/-- The 500 response body (lines 483-487); `details` is dropped outside
development mode because its value is `undefined`. -/
def internalErrorBody (devMode : Bool) (msg : String) : Json :=
  .obj ([("success", .bool false), ("error", .str (uStr "Internal server error"))] ++
    (if devMode then [("details", .str (uStr msg))] else []))

/-- The `fileUrl` intake branch (lines 411-419). -/
def urlBranch (ctx : HandlerCtx) (url : String) (net : NetOutcome) : Nat × Json :=
  match downloadFileFromUrl url net with
  | .error m => (400, .obj [("error", .str (uStr ("URL download failed: " ++ m)))])
  | .ok buffer => formatResult (processBuffer buffer (basename url)) ctx.elapsedMs

/-- The `fileBase64` intake branch (lines 420-428). -/
def base64Branch (ctx : HandlerCtx) (s : String) (fileName : Option String) : Nat × Json :=
  formatResult
    (processBuffer (base64Decode s)
      (if truthyStr fileName then fileName.getD "" else "uploaded_file"))
    ctx.elapsedMs

/-- The `binaryData` intake branch (lines 429-438). -/
def binaryBranch (ctx : HandlerCtx) (bd : Option (List Int)) (fileName : Option String) :
    Nat × Json :=
  match bd with
  | none => (400, .obj [("error", .str (uStr "Invalid binary data"))])
  | some data =>
    formatResult
      (processBuffer (data.map toByte)
        (if truthyStr fileName then fileName.getD "" else "n8n_upload"))
      ctx.elapsedMs

/-- The non-multipart body path (lines 392-443): JSON parse, then key dispatch
in priority order on JS-truthy values. -/
def jsonBodyBranch (ctx : HandlerCtx) (parse : Option JsonReq) (net : NetOutcome) :
    Nat × Json :=
  match parse with
  | none => (400, .obj [("error", .str (uStr "Invalid JSON body"))])
  | some b =>
    if truthyStr b.fileUrl then urlBranch ctx (b.fileUrl.getD "") net
    else if truthyStr b.fileBase64 then base64Branch ctx (b.fileBase64.getD "") b.fileName
    else
      match b.binaryData with
      | some bd => binaryBranch ctx bd b.fileName
      | none => (400, .obj [("error",
          .str (uStr "Missing file data. Provide fileUrl, fileBase64, or binaryData"))])

/-- The multipart path (lines 369-390); a `formidable` rejection escapes to the
outer `catch` (line 480) and becomes the 500 response. -/
def multipartBranch (ctx : HandlerCtx) (outcome : MultipartOutcome) : Nat × Json :=
  match outcome with
  | .parseError m => (500, internalErrorBody ctx.devMode m)
  | .noFile => (400, .obj [("error",
      .str (uStr "No file uploaded. Supported fields: 'file', 'resume', 'document'"))])
  | .file bytes originalFilename =>
    formatResult (processBuffer bytes originalFilename) ctx.elapsedMs

/-- Translation of the exported `handler(req, res)` (lines 329-492) as a
function from the request and its environment to the status code and JSON
body written back.  `OPTIONS` ends the response with an empty body (`null`
here); the security/CORS headers and the log line carry no data back to the
client and are outside the model. -/
def handler (ctx : HandlerCtx) (req : Request) (net : NetOutcome) : Nat × Json :=
  if req.method = "OPTIONS" then (200, .null)
  else if !(req.method = "POST") then
    (405, .obj [("error", .str (uStr "Method not allowed. Only POST requests accepted."))])
  else if ctx.rateLimited then
    (429, .obj [("error", .str (uStr "Rate limit exceeded")),
                ("retryAfter", .num ctx.retryAfter)])
  else if ctx.requireApiKey && !req.hasApiKey then
    (401, .obj [("error", .str (uStr "API key required"))])
  else if containsSub "multipart/form-data".data req.contentType.data then
    multipartBranch ctx req.multipartOutcome
  else jsonBodyBranch ctx req.jsonParse net

/-! ## Concrete fixtures used by witnesses and counterexamples -/

/-- A quiet environment: no rate limiting, no API-key requirement, production
mode, 3ms elapsed at formatting time. -/
def plainCtx : HandlerCtx :=
  { elapsedMs := 3, rateLimited := false, retryAfter := 0,
    requireApiKey := false, devMode := false }

/-- A `GET` request (the body collaborators are never consulted on this path). -/
def getRequest : Request :=
  { method := "GET", contentType := "", hasApiKey := false,
    multipartOutcome := .noFile, jsonParse := none }

/-- A `POST` request carrying the given parsed JSON body. -/
def postJson (b : JsonReq) : Request :=
  { method := "POST", contentType := "application/json", hasApiKey := false,
    multipartOutcome := .noFile, jsonParse := some b }

/-! ## Helper lemmas -/

/-- A successful `isPrefixOf` splits the longer list. -/
theorem exists_append_of_isPrefixOf :
    ∀ (l m : List Char), l.isPrefixOf m = true → ∃ t, m = l ++ t := by
  intro l
  induction l with
  | nil => intro m _; exact ⟨m, rfl⟩
  | cons a as ih =>
    intro m h
    cases m with
    | nil => simp [List.isPrefixOf] at h
    | cons b bs =>
      simp only [List.isPrefixOf, Bool.and_eq_true, beq_iff_eq] at h
      obtain ⟨t, ht⟩ := ih bs h.2
      exact ⟨t, by rw [h.1, ht]; rfl⟩

/-- Decoding a pure-ASCII byte list is the identity. -/
theorem utf8DecodeAux_ascii :
    ∀ (l : List Nat), (∀ b ∈ l, b < 0x80) → utf8DecodeAux l = l := by
  intro l
  induction l with
  | nil => intro _; rfl
  | cons b rest ih =>
    intro h
    have hb : b < 0x80 := h b (List.mem_cons_self b rest)
    have hrest : ∀ x ∈ rest, x < 0x80 := fun x hx => h x (List.mem_cons_of_mem b hx)
    unfold utf8DecodeAux
    rw [if_pos hb, ih hrest]

/-- Lemma: `splitOnNl` never returns the empty list of segments. -/
theorem splitOnNl_ne_nil : ∀ (l : List Nat), splitOnNl l ≠ [] := by
  intro l
  cases l with
  | nil => simp [splitOnNl]
  | cons c rest =>
    unfold splitOnNl
    by_cases hc : c = 10
    · simp [hc]
    · rw [if_neg hc]
      cases h : splitOnNl rest <;> simp

/-- JS `text.split('\n').length` is one more than the newline count. -/
theorem splitOnNl_length :
    ∀ (l : List Nat), (splitOnNl l).length = l.count 10 + 1 := by
  intro l
  induction l with
  | nil => rfl
  | cons c rest ih =>
    unfold splitOnNl
    by_cases hc : c = 10
    · subst hc
      simp [List.count_cons, ih]
    · rw [if_neg hc]
      rcases h : splitOnNl rest with _ | ⟨hd, tl⟩
      · exact absurd h (splitOnNl_ne_nil rest)
      · have := ih
        rw [h] at this
        simp only [List.length_cons] at this ⊢
        rw [List.count_cons]
        simp [hc, ← this]

/-! ## C1 — signature prefix match decides the tag, for every filename -/

/-- C1: for every buffer whose first 8 bytes, hex-encoded, have a registered
signature as a prefix, `detectFileType` returns the mapped tag for every
filename (`25504446` → pdf, `89504e47`/`ffd8` → image, `d0cf11e0`/`504b0304`
→ document); the signature check runs before the text heuristic and the
extension fallback, so those never interfere. -/
theorem detect_signature_wins (buffer : List Nat) (fileName : String)
    (sig : List Char) (tag : String)
    (hmem : (sig, tag) ∈ sigTable)
    (hpre : sig.isPrefixOf (magicOf buffer) = true) :
    detectFileType buffer fileName = tag := by
  simp only [sigTable, List.mem_cons, List.not_mem_nil, or_false, Prod.mk.injEq] at hmem
  rcases hmem with ⟨hs, ht⟩ | ⟨hs, ht⟩ | ⟨hs, ht⟩ | ⟨hs, ht⟩ | ⟨hs, ht⟩ <;> subst hs <;> subst ht <;>
    obtain ⟨t, hm⟩ := exists_append_of_isPrefixOf _ _ hpre <;>
    unfold detectFileType <;> rw [hm] <;>
    simp [sigPDF, sigPNG, sigJPEG, sigDOC, sigZIP, List.isPrefixOf]

/-- C1 witness: a concrete `%PDF`-headed buffer classifies as pdf even with a
`.png` filename. -/
theorem detect_signature_wins_witness :
    (sigPDF, "pdf") ∈ sigTable ∧
    sigPDF.isPrefixOf (magicOf (uBytes "%PDF-1.4")) = true ∧
    detectFileType (uBytes "%PDF-1.4") "picture.png" = "pdf" :=
  ⟨by decide, by decide,
   detect_signature_wins (uBytes "%PDF-1.4") "picture.png" sigPDF "pdf"
     (by decide) (by decide)⟩

/-! ## C2 — printable buffers classify as text (corrected: only non-empty ones) -/

/-- C2 counterexample: the empty buffer satisfies every hypothesis of the claim
(no registered signature is a prefix of its empty hex string, and all of its
zero bytes are printable), yet classification returns `unknown`, not `text`:
in JS the printable ratio of the empty decoded string is `0 / 0 = NaN`, and
`NaN > 0.8` is false, so the heuristic falls through. -/
theorem empty_printable_buffer_not_text :
    (∀ p ∈ sigTable, p.1.isPrefixOf (magicOf ([] : List Nat)) = false) ∧
    (∀ b ∈ ([] : List Nat), printableUnit b = true) ∧
    detectFileType [] "" ≠ "text" ∧
    detectFileType [] "" = "unknown" := by decide

/-- Core of the printable-text heuristic, shared by several results below. -/
theorem detectFileType_of_printable (buffer : List Nat) (fileName : String)
    (hne : buffer ≠ [])
    (hsig : ∀ p ∈ sigTable, p.1.isPrefixOf (magicOf buffer) = false)
    (hpr : ∀ b ∈ buffer, printableUnit b = true) :
    detectFileType buffer fileName = "text" := by
  have hpdf : sigPDF.isPrefixOf (magicOf buffer) = false :=
    hsig (sigPDF, "pdf") (by simp [sigTable])
  have hpng : sigPNG.isPrefixOf (magicOf buffer) = false :=
    hsig (sigPNG, "image") (by simp [sigTable])
  have hjpeg : sigJPEG.isPrefixOf (magicOf buffer) = false :=
    hsig (sigJPEG, "image") (by simp [sigTable])
  have hdoc : sigDOC.isPrefixOf (magicOf buffer) = false :=
    hsig (sigDOC, "document") (by simp [sigTable])
  have hzip : sigZIP.isPrefixOf (magicOf buffer) = false :=
    hsig (sigZIP, "document") (by simp [sigTable])
  have hascii : ∀ b ∈ buffer, b < 0x80 := by
    intro b hb
    have h := hpr b hb
    simp [printableUnit] at h
    rcases h with ⟨_, h2⟩ | h | h | h <;> omega
  have hdec : utf8Decode buffer = buffer := utf8DecodeAux_ascii buffer hascii
  have hnull : ¬ (0 ∈ buffer) := by
    intro h0
    have := hpr 0 h0
    simp [printableUnit] at this
  have hfilter : buffer.filter printableUnit = buffer := List.filter_eq_self.mpr hpr
  have hlen : 0 < buffer.length := List.length_pos.mpr hne
  have hratio : 5 * buffer.length > 4 * buffer.length := by omega
  simp [detectFileType, hpdf, hpng, hjpeg, hdoc, hzip, hdec, hnull, hfilter, hratio]

/-- C2 (amended): for every NON-EMPTY buffer with no recognized binary
signature whose bytes are all printable-ASCII-or-whitespace (`0x20`-`0x7E`,
tab, LF, CR — in particular no null byte), `detectFileType` returns `text`
for every filename, including ones whose extension is not an allowed type.
(The original claim also covered the empty buffer; the counterexample above
shows the code sends it to the extension fallback instead.) -/
theorem detect_printable_is_text (buffer : List Nat) (fileName : String)
    (hne : buffer ≠ [])
    (hsig : ∀ p ∈ sigTable, p.1.isPrefixOf (magicOf buffer) = false)
    (hpr : ∀ b ∈ buffer, printableUnit b = true) :
    detectFileType buffer fileName = "text" :=
  detectFileType_of_printable buffer fileName hne hsig hpr

/-- C2 witness: a concrete all-printable buffer with a disallowed extension. -/
theorem detect_printable_is_text_witness :
    uBytes "hello world" ≠ [] ∧
    (∀ p ∈ sigTable, p.1.isPrefixOf (magicOf (uBytes "hello world")) = false) ∧
    (∀ b ∈ uBytes "hello world", printableUnit b = true) ∧
    detectFileType (uBytes "hello world") "payload.exe" = "text" :=
  ⟨by decide, by decide, by decide,
   detect_printable_is_text (uBytes "hello world") "payload.exe"
     (by decide) (by decide) (by decide)⟩

/-- Dispatch: within the size bound, a text-family tag routes the buffer to the
text handler. -/
theorem processBuffer_textLike (buffer : List Nat) (fileName : String)
    (hsize : buffer.length ≤ MAX_FILE_SIZE)
    (htag : detectFileType buffer fileName ∈ (["text", "txt", "html", "htm"] : List String)) :
    processBuffer buffer fileName =
      handleTextLike buffer fileName (detectFileType buffer fileName) := by
  have hns : ¬ buffer.length > MAX_FILE_SIZE := by omega
  simp only [List.mem_cons, List.not_mem_nil, or_false] at htag
  rcases htag with h | h | h | h <;>
    simp [processBuffer, h, hns]

/-! ## C3 — the text handler: round-trip, line count, truncation -/

/-- C3: for every buffer the text/txt/html/htm handler receives (size guard
passed, classifier produced a text-family tag): if the decoded length is at
most `MAX_TEXT_LENGTH` the result's text is exactly the decoded input, with
`metadata.lines = 1 + (number of newlines)` and no truncation marker; if the
decoded length exceeds the maximum, the result's text is the prefix of
exactly `MAX_TEXT_LENGTH` code units followed by the fixed truncation
notice, with `truncated = true`, `originalLength` the full decoded length
and `extractedLength` exactly `MAX_TEXT_LENGTH`. -/
theorem text_handler_roundtrip_truncation (buffer : List Nat) (fileName : String)
    (hsize : buffer.length ≤ MAX_FILE_SIZE)
    (htag : detectFileType buffer fileName ∈ (["text", "txt", "html", "htm"] : List String)) :
    ((utf8Decode buffer).length ≤ MAX_TEXT_LENGTH →
      (processBuffer buffer fileName).text = some (utf8Decode buffer) ∧
      (processBuffer buffer fileName).metadata =
        some [("fileSize", buffer.length),
              ("textLength", (utf8Decode buffer).length),
              ("lines", (utf8Decode buffer).count 10 + 1)] ∧
      (processBuffer buffer fileName).truncated = none) ∧
    (MAX_TEXT_LENGTH < (utf8Decode buffer).length →
      (processBuffer buffer fileName).text =
        some ((utf8Decode buffer).take MAX_TEXT_LENGTH ++ truncationNotice) ∧
      ((utf8Decode buffer).take MAX_TEXT_LENGTH).length = MAX_TEXT_LENGTH ∧
      (processBuffer buffer fileName).truncated = some true ∧
      (processBuffer buffer fileName).originalLength = some (utf8Decode buffer).length ∧
      (processBuffer buffer fileName).extractedLength = some MAX_TEXT_LENGTH) := by
  rw [processBuffer_textLike buffer fileName hsize htag]
  constructor
  · intro hle
    have hgt : ¬ (utf8Decode buffer).length > MAX_TEXT_LENGTH := by omega
    simp [handleTextLike, hgt, splitOnNl_length]
  · intro hgt
    have : (utf8Decode buffer).length > MAX_TEXT_LENGTH := hgt
    simp [handleTextLike, this, List.length_take]
    omega

/-- C3 witness: a two-line ASCII buffer routed through the text handler. -/
theorem text_handler_roundtrip_truncation_witness :
    (uBytes "hello\nworld").length ≤ MAX_FILE_SIZE ∧
    detectFileType (uBytes "hello\nworld") "notes.txt" ∈
      (["text", "txt", "html", "htm"] : List String) ∧
    ((processBuffer (uBytes "hello\nworld") "notes.txt").text =
      some (utf8Decode (uBytes "hello\nworld")) ∧
     (processBuffer (uBytes "hello\nworld") "notes.txt").metadata =
      some [("fileSize", 11), ("textLength", 11), ("lines", 2)]) := by
  refine ⟨by decide, by decide, ?_⟩
  have h := (text_handler_roundtrip_truncation (uBytes "hello\nworld") "notes.txt"
    (by decide) (by decide)).1 (by decide)
  exact ⟨h.1, by rw [h.2.1]; decide⟩

/-! ## C4 — the size guard runs AFTER classification (corrected) -/

/-- Decoding a constant ASCII buffer is the identity (helper for the oversized
concrete buffers, which are too large to evaluate byte by byte). -/
theorem utf8Decode_replicate (n b : Nat) (hb : b < 0x80) :
    utf8Decode (List.replicate n b) = List.replicate n b :=
  utf8DecodeAux_ascii _ (fun x hx => by rw [List.eq_of_mem_replicate hx]; exact hb)

/-- A buffer whose decoded text contains a null unit and has no signature and
no usable filename classifies as `unknown` (the null-byte guard of the text
heuristic). -/
theorem detectFileType_unknown_of_null (buffer : List Nat)
    (hsig : ∀ p ∈ sigTable, p.1.isPrefixOf (magicOf buffer) = false)
    (hmem : 0 ∈ utf8Decode buffer) :
    detectFileType buffer "" = "unknown" := by
  have hpdf : sigPDF.isPrefixOf (magicOf buffer) = false :=
    hsig (sigPDF, "pdf") (by simp [sigTable])
  have hpng : sigPNG.isPrefixOf (magicOf buffer) = false :=
    hsig (sigPNG, "image") (by simp [sigTable])
  have hjpeg : sigJPEG.isPrefixOf (magicOf buffer) = false :=
    hsig (sigJPEG, "image") (by simp [sigTable])
  have hdoc : sigDOC.isPrefixOf (magicOf buffer) = false :=
    hsig (sigDOC, "document") (by simp [sigTable])
  have hzip : sigZIP.isPrefixOf (magicOf buffer) = false :=
    hsig (sigZIP, "document") (by simp [sigTable])
  simp [detectFileType, hpdf, hpng, hjpeg, hdoc, hzip, hmem]

/-- Evaluation of `processBuffer` on an oversized buffer is exactly the size-guard failure,
built around the classifier's tag. -/
theorem processBuffer_oversized (buffer : List Nat) (fileName : String)
    (h : buffer.length > MAX_FILE_SIZE) :
    processBuffer buffer fileName =
      sizeFailure buffer (detectFileType buffer fileName) := by
  simp [processBuffer, h]

/-- The oversized concrete buffers used below. -/
def bigPercentBuf : List Nat := List.replicate 52428801 37

def bigZeroBuf : List Nat := List.replicate 52428801 0

theorem bigPercentBuf_length : bigPercentBuf.length = 52428801 := by
  rw [bigPercentBuf, List.length_replicate]

theorem bigZeroBuf_length : bigZeroBuf.length = 52428801 := by
  rw [bigZeroBuf, List.length_replicate]

/-- The first eight bytes of the oversized `'%'` buffer. -/
theorem bigPercentBuf_magic : magicOf bigPercentBuf = hexEncode (List.replicate 8 37) := by
  rw [magicOf, bigPercentBuf, List.take_replicate]
  norm_num

theorem bigZeroBuf_magic : magicOf bigZeroBuf = hexEncode (List.replicate 8 0) := by
  rw [magicOf, bigZeroBuf, List.take_replicate]
  norm_num

/-- An oversized all-`'%'` buffer classifies as `text`. -/
theorem detect_big_percent : detectFileType bigPercentBuf "" = "text" := by
  apply detectFileType_of_printable
  · rw [bigPercentBuf]
    intro h
    have := congrArg List.length h
    rw [List.length_replicate] at this
    simp at this
  · intro p hp
    simp only [sigTable, List.mem_cons, List.not_mem_nil, or_false] at hp
    rcases hp with h | h | h | h | h <;> subst h <;> rw [bigPercentBuf_magic] <;> decide
  · intro b hb
    rw [bigPercentBuf] at hb
    rw [List.eq_of_mem_replicate hb]
    decide

/-- An oversized all-zero buffer classifies as `unknown`. -/
theorem detect_big_zero : detectFileType bigZeroBuf "" = "unknown" := by
  apply detectFileType_unknown_of_null
  · intro p hp
    simp only [sigTable, List.mem_cons, List.not_mem_nil, or_false] at hp
    rcases hp with h | h | h | h | h <;> subst h <;> rw [bigZeroBuf_magic] <;> decide
  · rw [bigZeroBuf, utf8Decode_replicate _ _ (by norm_num)]
    exact List.mem_replicate.mpr (by norm_num)

/-- C4 counterexample: two oversized buffers are both rejected by the size
guard, yet their failure results carry different `type` fields — each one
equal to the classifier's tag for that buffer.  So classification DOES run
before the size check, and the `FileTooLarge` failure both depends on and
contains the classifier's tag, contrary to the claim. -/
theorem size_failure_contains_tag :
    bigPercentBuf.length > MAX_FILE_SIZE ∧
    bigZeroBuf.length > MAX_FILE_SIZE ∧
    (processBuffer bigPercentBuf "").success = false ∧
    (processBuffer bigPercentBuf "").type = "text" ∧
    (processBuffer bigZeroBuf "").type = "unknown" ∧
    (processBuffer bigPercentBuf "").type = detectFileType bigPercentBuf "" := by
  have hlen37 : bigPercentBuf.length > MAX_FILE_SIZE := by
    rw [bigPercentBuf_length]; norm_num [MAX_FILE_SIZE]
  have hlen0 : bigZeroBuf.length > MAX_FILE_SIZE := by
    rw [bigZeroBuf_length]; norm_num [MAX_FILE_SIZE]
  rw [processBuffer_oversized _ _ hlen37, processBuffer_oversized _ _ hlen0]
  refine ⟨hlen37, hlen0, rfl, ?_, ?_, ?_⟩
  · rw [sizeFailure, detect_big_percent]
  · rw [sizeFailure, detect_big_zero]
  · rw [sizeFailure]

/-- C4 (amended): for every buffer longer than the configured maximum,
`processBuffer` fails with the `FileTooLarge` shape reporting the actual
byte count, and no per-type handler runs — but the classifier runs FIRST,
and the failure result contains (hence depends on) the classifier's tag. -/
theorem size_guard_after_classification (buffer : List Nat) (fileName : String)
    (h : buffer.length > MAX_FILE_SIZE) :
    processBuffer buffer fileName =
      sizeFailure buffer (detectFileType buffer fileName) :=
  processBuffer_oversized buffer fileName h

/-- C4 witness: the amended theorem applied to a concrete oversized buffer. -/
theorem size_guard_after_classification_witness :
    bigPercentBuf.length > MAX_FILE_SIZE ∧
    processBuffer bigPercentBuf "big.bin" =
      sizeFailure bigPercentBuf (detectFileType bigPercentBuf "big.bin") :=
  ⟨by rw [bigPercentBuf_length]; norm_num [MAX_FILE_SIZE],
   size_guard_after_classification bigPercentBuf "big.bin"
     (by rw [bigPercentBuf_length]; norm_num [MAX_FILE_SIZE])⟩

/-! ## C9 — classification is deterministic; no stage mutates the buffer -/

/-- The state-passing classifier computes the pure classifier's tag and
returns the buffer unchanged. -/
theorem detectFileTypeSt_spec (b : List Nat) (f : String) :
    detectFileTypeSt b f = (detectFileType b f, b) := by
  simp only [detectFileTypeSt, detectFileType, bufHex8St, bufUtf8St]
  split_ifs <;> rfl

/-- The state-passing pipeline computes the pure pipeline's result and returns
the buffer unchanged. -/
theorem processBufferSt_spec (b : List Nat) (f : String) :
    processBufferSt b f = (processBuffer b f, b) := by
  simp only [processBufferSt, detectFileTypeSt_spec, bufLengthSt, bufUtf8St, bufUtf8RangeSt,
    processBuffer, sizeFailure, handlePdf, handleTextLike, handleImage, handleDocument,
    handleUnknown]
  split_ifs <;> rfl

/-- C9: `detectFileType` is a pure, deterministic function — equal buffer and
filename inputs yield equal tags — and neither classification nor any
per-type handler mutates the buffer: threading the buffer state through
every primitive access, both stages return it exactly as received. -/
theorem classify_deterministic_no_mutation (b b2 : List Nat) (f f2 : String)
    (hb : b = b2) (hf : f = f2) :
    detectFileType b f = detectFileType b2 f2 ∧
    (detectFileTypeSt b f).2 = b ∧
    (detectFileTypeSt b f).1 = detectFileType b f ∧
    (processBufferSt b f).2 = b ∧
    (processBufferSt b f).1 = processBuffer b f := by
  subst hb; subst hf
  rw [detectFileTypeSt_spec, processBufferSt_spec]
  exact ⟨rfl, rfl, rfl, rfl, rfl⟩

/-- C9 witness: the purity and frame facts at a concrete buffer. -/
theorem classify_deterministic_no_mutation_witness :
    uBytes "abc" = uBytes "abc" ∧ "a.txt" = "a.txt" ∧
    (detectFileType (uBytes "abc") "a.txt" = detectFileType (uBytes "abc") "a.txt" ∧
     (detectFileTypeSt (uBytes "abc") "a.txt").2 = uBytes "abc" ∧
     (detectFileTypeSt (uBytes "abc") "a.txt").1 = detectFileType (uBytes "abc") "a.txt" ∧
     (processBufferSt (uBytes "abc") "a.txt").2 = uBytes "abc" ∧
     (processBufferSt (uBytes "abc") "a.txt").1 = processBuffer (uBytes "abc") "a.txt") :=
  ⟨rfl, rfl, classify_deterministic_no_mutation (uBytes "abc") (uBytes "abc")
    "a.txt" "a.txt" rfl rfl⟩

/-! ## C5 — the uniform error envelope (corrected: early exits are bare) -/

/-- C5 counterexample: the 405 response to a `GET` request is a bare
`{error: <string>}` object — no top-level `success` field, no
`executionTime`, and `error` is a string rather than an object with a
`message` — contradicting the claim that every error status carries the
uniform envelope. -/
theorem early_exit_responses_bare :
    (handler plainCtx getRequest .timeout).1 = 405 ∧
    jsonGet (handler plainCtx getRequest .timeout).2 "error" =
      some (.str (uStr "Method not allowed. Only POST requests accepted.")) ∧
    (jsonGet (handler plainCtx getRequest .timeout).2 "success").isNone = true ∧
    (jsonGet (handler plainCtx getRequest .timeout).2 "executionTime").isNone = true :=
  ⟨rfl, rfl, rfl, rfl⟩

/-- C5 (amended): only the Result Formatter's two envelopes (the 200 success
and the 400 classification/dispatch failure) carry the uniform shape with a
top-level `success` flag, an error object with a `message`, and
`executionTime`.  The early-exit error responses are bare objects: 405, 401
and the intake 400s are `{error: <string>}`, 429 adds `retryAfter`, and 500
has `success: false` with a string `error` — none of them has
`executionTime`. -/
theorem error_envelope_only_from_formatter (ctx : HandlerCtx) (req : Request)
    (net : NetOutcome) (hopt : req.method ≠ "OPTIONS") :
    (req.method ≠ "POST" →
      handler ctx req net =
        (405, .obj [("error",
          .str (uStr "Method not allowed. Only POST requests accepted."))])) ∧
    (req.method = "POST" → ctx.rateLimited = true →
      handler ctx req net =
        (429, .obj [("error", .str (uStr "Rate limit exceeded")),
                    ("retryAfter", .num ctx.retryAfter)])) ∧
    (req.method = "POST" → ctx.rateLimited = false → ctx.requireApiKey = true →
      req.hasApiKey = false →
      handler ctx req net = (401, .obj [("error", .str (uStr "API key required"))])) ∧
    (req.method = "POST" → ctx.rateLimited = false →
      (ctx.requireApiKey = false ∨ req.hasApiKey = true) →
      containsSub "multipart/form-data".data req.contentType.data = false →
      req.jsonParse = none →
      handler ctx req net = (400, .obj [("error", .str (uStr "Invalid JSON body"))])) ∧
    (∀ m, req.method = "POST" → ctx.rateLimited = false →
      (ctx.requireApiKey = false ∨ req.hasApiKey = true) →
      containsSub "multipart/form-data".data req.contentType.data = true →
      req.multipartOutcome = .parseError m →
      handler ctx req net = (500, internalErrorBody ctx.devMode m) ∧
      (jsonGet (internalErrorBody ctx.devMode m) "executionTime").isNone = true) ∧
    (∀ r : ExtractionResult, r.success = false →
      formatResult r ctx.elapsedMs = (400, errorEnvelope r ctx.elapsedMs) ∧
      jsonGet (errorEnvelope r ctx.elapsedMs) "success" = some (.bool false) ∧
      (r.error.isSome = true →
        (jsonGet2 (errorEnvelope r ctx.elapsedMs) "error" "message").isSome = true) ∧
      jsonGet (errorEnvelope r ctx.elapsedMs) "executionTime" =
        some (.str (executionTimeStr ctx.elapsedMs))) ∧
    (∀ r : ExtractionResult, r.success = true →
      formatResult r ctx.elapsedMs = (200, successEnvelope r ctx.elapsedMs) ∧
      jsonGet (successEnvelope r ctx.elapsedMs) "executionTime" =
        some (.str (executionTimeStr ctx.elapsedMs))) := by
  refine ⟨?_, ?_, ?_, ?_, ?_, ?_, ?_⟩
  · intro hpost
    simp [handler, hopt, hpost]
  · intro hpost hrl
    simp [handler, hopt, hpost, hrl]
  · intro hpost hrl hreq hkey
    simp [handler, hopt, hpost, hrl, hreq, hkey]
  · intro hpost hrl hauth hct hjson
    rcases hauth with h | h <;>
      simp [handler, jsonBodyBranch, hopt, hpost, hrl, h, hct, hjson]
  · intro m hpost hrl hauth hct hmp
    rcases hauth with h | h <;>
      exact ⟨by simp [handler, multipartBranch, hopt, hpost, hrl, h, hct, hmp],
        by cases hd : ctx.devMode <;> simp [internalErrorBody, hd, jsonGet, jsonAssoc]⟩
  · intro r hfail
    refine ⟨by simp [formatResult, hfail], by simp [errorEnvelope, jsonGet, jsonAssoc], ?_, ?_⟩
    · intro herr
      rcases hr : r.error with _ | e
      · rw [hr] at herr; simp at herr
      · simp [errorEnvelope, jsonGet2, jsonGet, jsonAssoc, optField, hr]
    · simp [errorEnvelope, jsonGet, jsonAssoc]
  · intro r hok
    refine ⟨by simp [formatResult, hok], by simp [successEnvelope, jsonGet, jsonAssoc]⟩

/-- C5 witness: the amended theorem applied at a concrete `GET` request (405
conjunct) and a concrete failed result (formatter conjunct). -/
theorem error_envelope_only_from_formatter_witness :
    getRequest.method ≠ "OPTIONS" ∧ getRequest.method ≠ "POST" ∧
    handler plainCtx getRequest .timeout =
      (405, .obj [("error",
        .str (uStr "Method not allowed. Only POST requests accepted."))]) ∧
    handleImage.success = false ∧
    formatResult handleImage plainCtx.elapsedMs =
      (400, errorEnvelope handleImage plainCtx.elapsedMs) :=
  ⟨by decide, by decide,
   (error_envelope_only_from_formatter plainCtx getRequest .timeout (by decide)).1
     (by decide),
   rfl,
   ((error_envelope_only_from_formatter plainCtx getRequest .timeout
     (by decide)).2.2.2.2.2.1 handleImage rfl).1⟩

/-! ## C6 — download failures (corrected: only exactly 200 is accepted) -/

/-- Within the size budget and with a clean end, streaming accumulates all
chunks in order. -/
theorem streamChunks_ok (cs : List (List Nat)) :
    ∀ (total : Nat) (acc : List (List Nat)),
      total + cs.flatten.length ≤ MAX_FILE_SIZE →
      streamChunks cs total acc .ok = .ok ((acc.reverse ++ cs).flatten) := by
  induction cs with
  | nil => intro total acc _; simp [streamChunks]
  | cons c rest ih =>
    intro total acc h
    simp only [List.flatten_cons, List.length_append] at h
    have hno : ¬ (total + c.length > MAX_FILE_SIZE) := by omega
    rw [streamChunks, if_neg hno, ih (total + c.length) (c :: acc) (by omega)]
    simp

/-- Within the size budget, a stream `'error'` event is propagated. -/
theorem streamChunks_err (cs : List (List Nat)) :
    ∀ (total : Nat) (acc : List (List Nat)) (m : String),
      total + cs.flatten.length ≤ MAX_FILE_SIZE →
      streamChunks cs total acc (.err m) = .error m := by
  induction cs with
  | nil => intro total acc m _; simp [streamChunks]
  | cons c rest ih =>
    intro total acc m h
    simp only [List.flatten_cons, List.length_append] at h
    have hno : ¬ (total + c.length > MAX_FILE_SIZE) := by omega
    rw [streamChunks, if_neg hno, ih (total + c.length) (c :: acc) m (by omega)]

/-- Once the chunks push the accumulated size past the maximum, streaming
always fails (with the message of the first overflowing cumulative size). -/
theorem streamChunks_overflow (cs : List (List Nat)) :
    ∀ (total : Nat) (acc : List (List Nat)) (fin : StreamEnd),
      total ≤ MAX_FILE_SIZE → total + cs.flatten.length > MAX_FILE_SIZE →
      ∃ e, streamChunks cs total acc fin = .error e := by
  induction cs with
  | nil =>
    intro total acc fin hle h
    simp at h
    omega
  | cons c rest ih =>
    intro total acc fin hle h
    by_cases hov : total + c.length > MAX_FILE_SIZE
    · exact ⟨_, by rw [streamChunks, if_pos hov]⟩
    · simp only [List.flatten_cons, List.length_append] at h
      obtain ⟨e, he⟩ := ih (total + c.length) (c :: acc) fin (by omega) (by omega)
      exact ⟨e, by rw [streamChunks, if_neg hov, he]⟩

/-- C6 counterexample: a completed fetch with the 2xx status 201 is REJECTED by
the status check (the code compares with `!== 200`, not with the 2xx range),
and an `http:` URL — which the claim admits — is also rejected, because the
request is issued through `https.get`. -/
theorem download_rejects_other_2xx :
    (200 ≤ 201 ∧ 201 < 300) ∧
    downloadFileFromUrl "https://example.com/file"
      (.response 201 "Created" [[104, 105]] .ok) = .error "HTTP 201: Created" ∧
    downloadFileFromUrl "http://example.com/file"
      (.response 200 "OK" [[104, 105]] .ok) =
      .error "Protocol \"http:\" not supported. Expected \"https:\"" :=
  ⟨by decide, rfl, rfl⟩

/-- C6 (amended): a URL fetch fails exactly when: the URL string does not
parse (`new URL` throws — no valid scheme, or a special-scheme URL such as
`https://` whose host is empty), the parsed scheme — matched
case-insensitively, since the parser lowercases it — is anything other than
`https:` (the code's own check admits `http:`, but the request is then
issued via `https.get`, which rejects `http:` URLs), the 30-second timeout
elapses, a transport or mid-stream error occurs, the accumulated download
exceeds the maximum size, or the response status is any value other than
EXACTLY 200 — other 2xx statuses are rejected; a status-200 response within
the size budget and with a clean end succeeds with the concatenated chunks.
The scheme-dispatch conjuncts are stated over `downloadWithProtocol`, the
exact value the program branches on. -/
theorem download_failure_characterization (url : String) (status : Nat) (sm : String)
    (chunks : List (List Nat)) (net : NetOutcome)
    (hp : urlProtocol url = some "https:") :
    (status ≠ 200 →
      downloadFileFromUrl url (.response status sm chunks .ok) =
        .error ("HTTP " ++ toString status ++ ": " ++ sm)) ∧
    downloadFileFromUrl url .timeout = .error "Request timeout" ∧
    (∀ m, downloadFileFromUrl url (.connError m) = .error m) ∧
    (∀ m, chunks.flatten.length ≤ MAX_FILE_SIZE →
      downloadFileFromUrl url (.response 200 sm chunks (.err m)) = .error m) ∧
    (chunks.flatten.length > MAX_FILE_SIZE →
      ∃ e, downloadFileFromUrl url (.response 200 sm chunks .ok) = .error e) ∧
    (chunks.flatten.length ≤ MAX_FILE_SIZE →
      downloadFileFromUrl url (.response 200 sm chunks .ok) = .ok chunks.flatten) ∧
    (∀ u2, urlProtocol u2 = none → downloadFileFromUrl u2 net = .error "Invalid URL") ∧
    (∀ q, q ≠ "http:" → q ≠ "https:" →
      downloadWithProtocol (some q) net = .error "Invalid URL protocol") ∧
    downloadWithProtocol (some "http:") net =
      .error "Protocol \"http:\" not supported. Expected \"https:\"" := by
  refine ⟨?_, ?_, ?_, ?_, ?_, ?_, ?_, ?_, ?_⟩
  · intro hs
    simp [downloadFileFromUrl, downloadWithProtocol, hp, hs]
  · simp [downloadFileFromUrl, downloadWithProtocol, hp]
  · intro m
    simp [downloadFileFromUrl, downloadWithProtocol, hp]
  · intro m h
    have hse := streamChunks_err chunks 0 [] m (by omega)
    simp [downloadFileFromUrl, downloadWithProtocol, hp, hse]
  · intro h
    obtain ⟨e, he⟩ :=
      streamChunks_overflow chunks 0 [] .ok (by simp [MAX_FILE_SIZE]) (by omega)
    exact ⟨e, by simp [downloadFileFromUrl, downloadWithProtocol, hp, he]⟩
  · intro h
    have hso := streamChunks_ok chunks 0 [] (by omega)
    simp [downloadFileFromUrl, downloadWithProtocol, hp, hso]
  · intro u2 h2
    simp [downloadFileFromUrl, downloadWithProtocol, h2]
  · intro q hq1 hq2
    simp [downloadWithProtocol, hq1, hq2]
  · simp [downloadWithProtocol]

/-- C6 witness: the characterization applied at concrete URLs — a rejected 404
and an accepted clean 200 on a lowercase https URL, a clean 200 on an
UPPERCASE-scheme URL (the parser normalizes case), the empty unparsable
URL, and the parse failure of `https://` (special scheme, empty host). -/
theorem download_failure_characterization_witness :
    urlProtocol "https://example.com/a.txt" = some "https:" ∧
    urlProtocol "HTTPS://Example.com/a.txt" = some "https:" ∧
    urlProtocol "https://" = none ∧
    downloadFileFromUrl "https://example.com/a.txt"
      (.response 404 "Not Found" [] .ok) = .error "HTTP 404: Not Found" ∧
    downloadFileFromUrl "HTTPS://Example.com/a.txt"
      (.response 200 "OK" [[104], [105]] .ok) = .ok [104, 105] ∧
    downloadFileFromUrl "" .timeout = .error "Invalid URL" := by
  have h := download_failure_characterization "https://example.com/a.txt" 404
    "Not Found" [] .timeout (by decide)
  have h2 := download_failure_characterization "HTTPS://Example.com/a.txt" 200
    "OK" [[104], [105]] .timeout (by decide)
  refine ⟨by decide, by decide, by decide, h.1 (by decide), ?_,
    h.2.2.2.2.2.2.1 "" (by decide)⟩
  have h3 := h2.2.2.2.2.2.1 (by decide)
  simpa using h3

/-! ## C7 — JSON key dispatch (corrected: JS truthiness, not key presence) -/

/-- C7 counterexample: a body whose `fileUrl` KEY is present but holds the
falsy value `""` is skipped by the dispatch.  With `fileBase64` also present
the base64 transport is taken (here ending in the unknown-type rejection for
the decoded null byte); with `fileUrl: ""` alone the result is
`MissingFileData`.  Under the claim, the present `fileUrl` key would have
determined the URL transport, whose outcome for `""` is the download-failed
response shown in the third conjunct — not what the handler returns. -/
theorem falsy_fileUrl_key_skipped :
    handler plainCtx (postJson { fileUrl := some "", fileBase64 := some "AA==" }) .timeout =
      (400, errorEnvelope handleUnknown plainCtx.elapsedMs) ∧
    handler plainCtx (postJson { fileUrl := some "" }) .timeout =
      (400, .obj [("error",
        .str (uStr "Missing file data. Provide fileUrl, fileBase64, or binaryData"))]) ∧
    urlBranch plainCtx "" .timeout =
      (400, .obj [("error", .str (uStr "URL download failed: Invalid URL"))]) :=
  ⟨rfl, rfl, rfl⟩

/-- C7 (amended): for every non-multipart JSON request body, key dispatch
follows the fixed priority order `fileUrl`, then `fileBase64`, then
`binaryData`, each tested by JS TRUTHINESS — a key present with a falsy
value (such as `""` or `null`) is skipped exactly like an absent one — so
the highest-priority truthy key alone determines the transport; and when no
key is truthy the result is the `MissingFileData` 400 response, never an
unhandled fault. -/
theorem json_dispatch_truthy_priority (ctx : HandlerCtx) (req : Request)
    (net : NetOutcome) (b : JsonReq)
    (hm : req.method = "POST")
    (hrl : ctx.rateLimited = false)
    (hauth : ctx.requireApiKey = false ∨ req.hasApiKey = true)
    (hct : containsSub "multipart/form-data".data req.contentType.data = false)
    (hj : req.jsonParse = some b) :
    (∀ u, b.fileUrl = some u → u ≠ "" →
      handler ctx req net = urlBranch ctx u net) ∧
    (truthyStr b.fileUrl = false → ∀ s, b.fileBase64 = some s → s ≠ "" →
      handler ctx req net = base64Branch ctx s b.fileName) ∧
    (truthyStr b.fileUrl = false → truthyStr b.fileBase64 = false →
      ∀ bd, b.binaryData = some bd →
      handler ctx req net = binaryBranch ctx bd b.fileName) ∧
    (truthyStr b.fileUrl = false → truthyStr b.fileBase64 = false →
      b.binaryData = none →
      handler ctx req net = (400, .obj [("error",
        .str (uStr "Missing file data. Provide fileUrl, fileBase64, or binaryData"))])) := by
  refine ⟨?_, ?_, ?_, ?_⟩
  · intro u hu hne
    rcases hauth with h | h <;>
      simp [handler, jsonBodyBranch, hm, hrl, h, hct, hj, truthyStr, hu, hne]
  · intro hfu s hs hne
    rcases hauth with h | h <;>
      simp [handler, jsonBodyBranch, hm, hrl, h, hct, hj, hfu] <;>
      simp [truthyStr, hs, hne]
  · intro hfu hfb bd hbd
    rcases hauth with h | h <;>
      simp [handler, jsonBodyBranch, hm, hrl, h, hct, hj, hfu, hfb, hbd]
  · intro hfu hfb hbd
    rcases hauth with h | h <;>
      simp [handler, jsonBodyBranch, hm, hrl, h, hct, hj, hfu, hfb, hbd]

/-- C7 witness: the base64 conjunct applied to a concrete body whose only
truthy key is `fileBase64`. -/
theorem json_dispatch_truthy_priority_witness :
    truthyStr (JsonReq.fileUrl { fileBase64 := some "dGVzdA==" }) = false ∧
    handler plainCtx (postJson { fileBase64 := some "dGVzdA==" }) .timeout =
      base64Branch plainCtx "dGVzdA==" none :=
  ⟨by decide,
   (json_dispatch_truthy_priority plainCtx (postJson { fileBase64 := some "dGVzdA==" })
     .timeout { fileBase64 := some "dGVzdA==" } rfl rfl (Or.inl rfl) (by decide) rfl).2.1
     (by decide) "dGVzdA==" rfl (by decide)⟩

/-! ## C8 — invalid base64 is never rejected (code bug: dead catch arm) -/

/-- C8: the claim says some request with an invalid `fileBase64` fails with the
`Invalid base64 encoding` error, and the source's `catch` (line 424) was
clearly written to that end — but Node's `Buffer.from(s, 'base64')` never
throws for a string: it skips the invalid characters.  Evaluating the code
at the failing input `"!!!"`: the decode yields the empty buffer, the
pipeline proceeds to classification, and the response is the unknown-type
rejection, not the invalid-encoding error. -/
theorem invalid_base64_not_rejected :
    base64Decode "!!!" = [] ∧
    handler plainCtx (postJson { fileBase64 := some "!!!" }) .timeout =
      (400, errorEnvelope handleUnknown plainCtx.elapsedMs) ∧
    jsonGet2 (errorEnvelope handleUnknown plainCtx.elapsedMs) "error" "message" =
      some (.str (uStr "Unsupported file type")) :=
  ⟨rfl, rfl, rfl⟩

/-! ## C10 — the truncated text result has empty metadata -/

/-- The concrete 50001-byte `'a'` buffer used by the C10 witness. -/
def midABuf : List Nat := List.replicate 50001 97

theorem midABuf_length : midABuf.length = 50001 := by
  rw [midABuf, List.length_replicate]

theorem midABuf_decoded_length : (utf8Decode midABuf).length = 50001 := by
  rw [midABuf, utf8Decode_replicate _ _ (by norm_num), List.length_replicate]

theorem midABuf_magic : magicOf midABuf = hexEncode (List.replicate 8 97) := by
  rw [magicOf, midABuf, List.take_replicate]
  norm_num

/-- The 50001-byte `'a'` buffer classifies as `text`. -/
theorem detect_midA : detectFileType midABuf "long.txt" = "text" := by
  apply detectFileType_of_printable
  · rw [midABuf]
    intro h
    have := congrArg List.length h
    rw [List.length_replicate] at this
    simp at this
  · intro p hp
    simp only [sigTable, List.mem_cons, List.not_mem_nil, or_false] at hp
    rcases hp with h | h | h | h | h <;> subst h <;> rw [midABuf_magic] <;> decide
  · intro b hb
    rw [midABuf] at hb
    rw [List.eq_of_mem_replicate hb]
    decide

/-- C10: for every buffer the text handler truncates (text-family tag, size
guard passed, decoded length above `MAX_TEXT_LENGTH`), the success result
carries NO metadata at all, so the success envelope's `data.metadata` is the
empty object — whereas every non-truncated text result populates `fileSize`,
`textLength` and `lines`. -/
theorem truncated_result_empty_metadata (buffer : List Nat) (fileName : String)
    (elapsed : Nat)
    (hsize : buffer.length ≤ MAX_FILE_SIZE)
    (htag : detectFileType buffer fileName ∈ (["text", "txt", "html", "htm"] : List String))
    (hlen : MAX_TEXT_LENGTH < (utf8Decode buffer).length) :
    (processBuffer buffer fileName).metadata = none ∧
    (processBuffer buffer fileName).success = true ∧
    jsonGet2 (successEnvelope (processBuffer buffer fileName) elapsed) "data" "metadata" =
      some (.obj []) ∧
    (∀ buffer2 fileName2, buffer2.length ≤ MAX_FILE_SIZE →
      detectFileType buffer2 fileName2 ∈ (["text", "txt", "html", "htm"] : List String) →
      (utf8Decode buffer2).length ≤ MAX_TEXT_LENGTH →
      (processBuffer buffer2 fileName2).metadata =
        some [("fileSize", buffer2.length),
              ("textLength", (utf8Decode buffer2).length),
              ("lines", (splitOnNl (utf8Decode buffer2)).length)]) := by
  rw [processBuffer_textLike buffer fileName hsize htag]
  have hgt : (utf8Decode buffer).length > MAX_TEXT_LENGTH := hlen
  refine ⟨by simp [handleTextLike, hgt], by simp [handleTextLike, hgt], ?_, ?_⟩
  · simp [handleTextLike, hgt, successEnvelope, jsonGet2, jsonGet, jsonAssoc, optField]
  · intro buffer2 fileName2 hs2 ht2 hl2
    rw [processBuffer_textLike buffer2 fileName2 hs2 ht2]
    have hng : ¬ (utf8Decode buffer2).length > MAX_TEXT_LENGTH := by omega
    simp [handleTextLike, hng]

/-- C10 witness: the theorem applied to a concrete 50001-byte text buffer. -/
theorem truncated_result_empty_metadata_witness :
    midABuf.length ≤ MAX_FILE_SIZE ∧
    detectFileType midABuf "long.txt" ∈ (["text", "txt", "html", "htm"] : List String) ∧
    MAX_TEXT_LENGTH < (utf8Decode midABuf).length ∧
    ((processBuffer midABuf "long.txt").metadata = none ∧
     jsonGet2 (successEnvelope (processBuffer midABuf "long.txt") 3) "data" "metadata" =
       some (.obj [])) := by
  have h1 : midABuf.length ≤ MAX_FILE_SIZE := by
    rw [midABuf_length]; norm_num [MAX_FILE_SIZE]
  have h2 : detectFileType midABuf "long.txt" ∈ (["text", "txt", "html", "htm"] : List String) := by
    rw [detect_midA]; decide
  have h3 : MAX_TEXT_LENGTH < (utf8Decode midABuf).length := by
    rw [midABuf_decoded_length]; norm_num [MAX_TEXT_LENGTH]
  have h := truncated_result_empty_metadata midABuf "long.txt" 3 h1 h2 h3
  exact ⟨h1, h2, h3, h.1, h.2.2.1⟩

end ExtractApi
